import Mathlib

/-!
Shallow embedding of the `transfercalculator` repository's orbital-mechanics
core (crate `planetary_transfer`: `lib.rs`, `quantities.rs`, `calculus.rs`)
and the phase-angle normalization of the presentation layer
(`app/src/plotting.rs`, `Protractor::new`).

`f64` values are modelled as real numbers; `f64` operations become the
corresponding exact real operations.  Rust's division-by-zero (which yields
`inf`/`NaN` on floats) is modelled by Lean's `x / 0 = 0` convention; where a
claim's fate hangs on such a point this is recorded with the claim.
Rust's `%` on floats (remainder with the sign of the dividend) and
`f64::round` (half away from zero) are modelled explicitly below.
The panicking constructor `Transfer::new` is modelled as returning `Option`.
-/

open Real

noncomputable section

/-- Rust `f64::round`: round half away from zero. -/
def rustRound (x : ℝ) : ℤ :=
  if 0 ≤ x then ⌊x + 1 / 2⌋ else ⌈x - 1 / 2⌉

/-- Rust `%` on `f64`: remainder with the sign of the dividend,
`x - y * trunc (x / y)` (truncation toward zero). -/
def rustFmod (x y : ℝ) : ℝ :=
  x - y * (if 0 ≤ x / y then (⌊x / y⌋ : ℝ) else (⌈x / y⌉ : ℝ))

/-- Rust `f64::acosh`: `ln (x + sqrt (x^2 - 1))` on its domain. -/
def rustAcosh (x : ℝ) : ℝ :=
  Real.log (x + Real.sqrt (x ^ 2 - 1))

/-- `std::f64::consts::TAU`. -/
def TAU : ℝ := 2 * π

/-- `calculus.rs`: `round_to(value, decimal) = (value * 10^decimal).round() / 10^decimal`. -/
def round_to (value : ℝ) (decimal : ℕ) : ℝ :=
  (rustRound (value * (10 : ℝ) ^ decimal) : ℝ) / (10 : ℝ) ^ decimal

/-! ## quantities.rs: conversion constants -/

def GRAVITATIONAL_CONSTANT : ℝ := 6.67430E-11
def KILOGRAMS_LUNAR : ℝ := 7.34767309E22
def KILOGRAMS_EARTH : ℝ := 5.9722E24
def KILOGRAMS_JOVIAN : ℝ := 1.89813E27
def KILOGRAMS_SOLAR : ℝ := 1.98847E30

def SECONDS_MINUTE : ℝ := 60.0
def SECONDS_HOUR : ℝ := 3600.0
def SECONDS_DAY : ℝ := 86400.0
def SECONDS_MONTH : ℝ := 2629746.0
def SECONDS_YEAR : ℝ := 31556952.0

def METERS_AU : ℝ := 149598023E3

/-! ## quantities.rs: Duration -/

/-- `Duration`: seconds, minutes, hours, days, months, years. -/
structure Duration where
  s : ℝ
  min : ℝ
  h : ℝ
  d : ℝ
  m : ℝ
  y : ℝ

def Duration.from_seconds (seconds : ℝ) : Duration :=
  { s := seconds
    min := seconds / SECONDS_MINUTE
    h := seconds / SECONDS_HOUR
    d := seconds / SECONDS_DAY
    m := seconds / SECONDS_MONTH
    y := seconds / SECONDS_YEAR }

def Duration.from_minutes (duration : ℝ) : Duration :=
  Duration.from_seconds (duration * SECONDS_MINUTE)

def Duration.from_hours (duration : ℝ) : Duration :=
  Duration.from_seconds (duration * SECONDS_HOUR)

def Duration.from_days (duration : ℝ) : Duration :=
  Duration.from_seconds (duration * SECONDS_DAY)

def Duration.from_months (duration : ℝ) : Duration :=
  Duration.from_seconds (duration * SECONDS_MONTH)

def Duration.from_years (duration : ℝ) : Duration :=
  Duration.from_seconds (duration * SECONDS_YEAR)

/-- `Duration::iter_with_string`, largest unit first. -/
def Duration.iter_with_string (self : Duration) : List (ℝ × String) :=
  [(self.y, "years"), (self.m, "months"), (self.d, "days"),
   (self.h, "hours"), (self.min, "minutes"), (self.s, "seconds")]

open Classical in
/-- `Duration::smallest_duration`: first unit whose value is `>= 1.0`,
falling back to seconds. -/
def Duration.smallest_duration (self : Duration) : ℝ × String :=
  match self.iter_with_string.find? (fun item => decide (1 ≤ item.1)) with
  | some value => value
  | none => (self.s, "seconds")

/-! ## quantities.rs: Mass -/

structure Mass where
  kg : ℝ
  lunar : ℝ
  earth : ℝ
  jovian : ℝ
  solar : ℝ
  gravitational_parameter : ℝ

def Mass.from_kilograms (mass : ℝ) : Mass :=
  { kg := mass
    lunar := mass / KILOGRAMS_LUNAR
    earth := mass / KILOGRAMS_EARTH
    jovian := mass / KILOGRAMS_JOVIAN
    solar := mass / KILOGRAMS_SOLAR
    gravitational_parameter := mass * GRAVITATIONAL_CONSTANT }

def Mass.from_lunar (mass : ℝ) : Mass := Mass.from_kilograms (mass * KILOGRAMS_LUNAR)

def Mass.from_earth (mass : ℝ) : Mass := Mass.from_kilograms (mass * KILOGRAMS_EARTH)

def Mass.from_jovian (mass : ℝ) : Mass := Mass.from_kilograms (mass * KILOGRAMS_JOVIAN)

def Mass.from_solar (mass : ℝ) : Mass := Mass.from_kilograms (mass * KILOGRAMS_SOLAR)

/-- `Mass::kg_updated` (`&mut self` modelled by state passing). -/
def Mass.kg_updated (self : Mass) : Mass := Mass.from_kilograms self.kg

def Mass.lunar_updated (self : Mass) : Mass := Mass.from_lunar self.lunar

def Mass.earth_updated (self : Mass) : Mass := Mass.from_earth self.earth

def Mass.jovian_updated (self : Mass) : Mass := Mass.from_jovian self.jovian

def Mass.solar_updated (self : Mass) : Mass := Mass.from_solar self.solar

/-! ## quantities.rs: Distance -/

structure Distance where
  m : ℝ
  km : ℝ
  au : ℝ

def Distance.from_meters (sma : ℝ) : Distance :=
  { m := sma, km := sma / 1E3, au := sma / METERS_AU }

def Distance.from_kilometers (sma : ℝ) : Distance := Distance.from_meters (sma * 1E3)

def Distance.from_astronomical_unit (sma : ℝ) : Distance := Distance.from_meters (sma * METERS_AU)

def Distance.m_updated (self : Distance) : Distance := Distance.from_meters self.m

def Distance.km_updated (self : Distance) : Distance := Distance.from_kilometers self.km

def Distance.au_updated (self : Distance) : Distance := Distance.from_astronomical_unit self.au

/-! ## quantities.rs: Velocity -/

structure Velocity where
  mmps : ℝ
  mps : ℝ
  kps : ℝ

def Velocity.from_meters_per_second (velocity : ℝ) : Velocity :=
  { mmps := velocity / 1E-3, mps := velocity, kps := velocity / 1E3 }

def Velocity.from_millimeters_per_second (velocity : ℝ) : Velocity :=
  Velocity.from_meters_per_second (velocity * 1E-3)

def Velocity.from_kilometers_per_second (velocity : ℝ) : Velocity :=
  Velocity.from_meters_per_second (velocity * 1E3)

def Velocity.mmps_updated (self : Velocity) : Velocity :=
  Velocity.from_millimeters_per_second self.mmps

def Velocity.mps_updated (self : Velocity) : Velocity :=
  Velocity.from_meters_per_second self.mps

def Velocity.kps_updated (self : Velocity) : Velocity :=
  Velocity.from_kilometers_per_second self.kps

/-! ## calculus.rs: the `calculus!` macro's `Add`/`Sub`/`Mul<f64>`/`Div<f64>`
impls for `Duration`, `Distance`, `Velocity`: each operation works on the
base quantity and rebuilds through the canonical constructor. -/

def Duration.add (a b : Duration) : Duration := Duration.from_seconds (a.s + b.s)

def Duration.sub (a b : Duration) : Duration := Duration.from_seconds (a.s - b.s)

def Duration.mul (a : Duration) (rhs : ℝ) : Duration := Duration.from_seconds (a.s * rhs)

def Duration.div (a : Duration) (rhs : ℝ) : Duration := Duration.from_seconds (a.s / rhs)

def Distance.add (a b : Distance) : Distance := Distance.from_meters (a.m + b.m)

def Distance.sub (a b : Distance) : Distance := Distance.from_meters (a.m - b.m)

def Distance.mul (a : Distance) (rhs : ℝ) : Distance := Distance.from_meters (a.m * rhs)

def Distance.div (a : Distance) (rhs : ℝ) : Distance := Distance.from_meters (a.m / rhs)

def Velocity.add (a b : Velocity) : Velocity := Velocity.from_meters_per_second (a.mps + b.mps)

def Velocity.sub (a b : Velocity) : Velocity := Velocity.from_meters_per_second (a.mps - b.mps)

def Velocity.mul (a : Velocity) (rhs : ℝ) : Velocity := Velocity.from_meters_per_second (a.mps * rhs)

def Velocity.div (a : Velocity) (rhs : ℝ) : Velocity := Velocity.from_meters_per_second (a.mps / rhs)

/-! ## lib.rs: Parent, Planet, Transfer -/

structure Parent where
  mass : Mass

def Parent.new (mass : Mass) : Parent := { mass := mass }

structure Planet where
  sma : Distance
  parent : Parent

def Planet.new (sma : Distance) (parent : Parent) : Planet :=
  { sma := sma, parent := parent }

/-- `Planet::period` = `2π·sqrt(sma³/μ)`. -/
def Planet.period (self : Planet) : ℝ :=
  2 * π * Real.sqrt (self.sma.m ^ 3 / self.parent.mass.gravitational_parameter)

/-- `Planet::orbital_velocity` = `sqrt(μ/sma)`. -/
def Planet.orbital_velocity (self : Planet) : Velocity :=
  Velocity.from_meters_per_second
    (Real.sqrt (self.parent.mass.gravitational_parameter / self.sma.m))

structure Transfer where
  origin : Planet
  target : Planet
  parent : Parent
  add_delta_v : Velocity

open Classical in
/-- `Transfer::new`.  The source panics on mismatched gravitational
parameters; the panic is modelled as `none`. -/
def Transfer.new (origin target : Planet) : Option Transfer :=
  if origin.parent.mass.gravitational_parameter = target.parent.mass.gravitational_parameter then
    some { origin := origin, target := target, parent := origin.parent,
           add_delta_v := Velocity.from_meters_per_second 0.0 }
  else
    none

/-- `Transfer::velocity_hohmann` = `origin.orbital_velocity() * sqrt(2·target.sma/(origin.sma+target.sma))`. -/
def Transfer.velocity_hohmann (self : Transfer) : Velocity :=
  Velocity.mul self.origin.orbital_velocity
    (Real.sqrt ((2 * self.target.sma.m) / (self.origin.sma.m + self.target.sma.m)))

/-- `Transfer::delta_v_hohmann` = `velocity_hohmann() - origin.orbital_velocity()`. -/
def Transfer.delta_v_hohmann (self : Transfer) : Velocity :=
  Velocity.sub self.velocity_hohmann self.origin.orbital_velocity

/-- `Transfer::set_delta_v` (`&mut self` modelled by state passing). -/
def Transfer.set_delta_v (self : Transfer) (delta_v : Velocity) : Transfer :=
  { self with add_delta_v := Velocity.sub delta_v self.delta_v_hohmann }

/-- `Transfer::launch_velocity` = `velocity_hohmann() + add_delta_v`. -/
def Transfer.launch_velocity (self : Transfer) : Velocity :=
  Velocity.add self.velocity_hohmann self.add_delta_v

/-- `Transfer::sma` = `origin.sma·μ / (2μ − origin.sma·launch_velocity²)`. -/
def Transfer.sma (self : Transfer) : Distance :=
  Distance.from_meters
    ((self.origin.sma.m * self.parent.mass.gravitational_parameter) /
      (2 * self.parent.mass.gravitational_parameter -
        self.origin.sma.m * self.launch_velocity.mps ^ 2))

/-- `Transfer::eccentricity` = `1 − origin.sma / sma()`. -/
def Transfer.eccentricity (self : Transfer) : ℝ :=
  1 - self.origin.sma.m / self.sma.m

/-- The argument handed to `acos` inside `Transfer::true_anomaly`:
`round_to(((sma·(1−e²))/r − 1)/e, 5)`. -/
def Transfer.acos_argument (self : Transfer) (sma : Distance) : ℝ :=
  round_to ((((self.sma.m * (1 - self.eccentricity ^ 2)) / sma.m) - 1) / self.eccentricity) 5

/-- `Transfer::true_anomaly` = `acos` of the rounded argument. -/
def Transfer.true_anomaly (self : Transfer) (sma : Distance) : ℝ :=
  Real.arccos (self.acos_argument sma)

/-- `Transfer::eccentric_anomaly_cos`. -/
def Transfer.eccentric_anomaly_cos (self : Transfer) (true_anomaly : ℝ) : ℝ :=
  (self.eccentricity + Real.cos true_anomaly) / (1 + self.eccentricity * Real.cos true_anomaly)

open Classical in
/-- `Transfer::mean_anomaly`: elliptic branch for `|e| < 1`, hyperbolic otherwise. -/
def Transfer.mean_anomaly (self : Transfer) (eccentric_anomaly_cos : ℝ) : ℝ :=
  if |self.eccentricity| < 1 then
    Real.arccos eccentric_anomaly_cos -
      self.eccentricity * Real.sin (Real.arccos eccentric_anomaly_cos)
  else
    self.eccentricity * Real.sinh (rustAcosh eccentric_anomaly_cos) -
      rustAcosh eccentric_anomaly_cos

def Transfer.origin_true_anomaly_departure (self : Transfer) : ℝ :=
  self.true_anomaly self.origin.sma

def Transfer.target_true_anomaly_arrival (self : Transfer) : ℝ :=
  self.true_anomaly self.target.sma

/-- `Transfer::time_of_flight`. -/
def Transfer.time_of_flight (self : Transfer) : Duration :=
  Duration.from_seconds
    ((self.mean_anomaly (self.eccentric_anomaly_cos self.target_true_anomaly_arrival) -
        self.mean_anomaly (self.eccentric_anomaly_cos self.origin_true_anomaly_departure)) *
      Real.sqrt (|self.sma.m| ^ 3 / self.parent.mass.gravitational_parameter))

/-- `Transfer::target_true_anomaly_departure` (the phase angle):
`(target_true_anomaly_arrival() − 2π·ToF/target.period()) % TAU`. -/
def Transfer.target_true_anomaly_departure (self : Transfer) : ℝ :=
  rustFmod (self.target_true_anomaly_arrival -
    TAU * self.time_of_flight.s / self.target.period) TAU

def Transfer.origin_true_anomaly_arrival (self : Transfer) : ℝ :=
  rustFmod (self.origin_true_anomaly_departure +
    TAU * self.time_of_flight.s / self.origin.period) TAU

/-- `Transfer::min_velocity`. -/
def Transfer.min_velocity (self : Transfer) : Velocity :=
  self.delta_v_hohmann

open Classical in
/-- `Transfer::max_velocity`. -/
def Transfer.max_velocity (self : Transfer) : Velocity :=
  if self.origin.sma.au < self.target.sma.au then
    Velocity.add self.delta_v_hohmann (Velocity.mul self.velocity_hohmann 0.6)
  else
    Velocity.sub self.delta_v_hohmann (Velocity.mul self.velocity_hohmann 0.6)

/-! ## plotting.rs: Protractor (the phase-angle normalization of the
presentation layer; styling fields are omitted, the numeric state is kept). -/

structure Protractor where
  angle : ℝ
  length : ℝ
  protrusion : ℝ

/-- `Protractor::new`: stores `(angle % TAU + TAU + PI) % TAU - PI`. -/
def Protractor.new (angle length : ℝ) : Protractor :=
  { angle := rustFmod (rustFmod angle TAU + TAU + π) TAU - π
    length := length
    protrusion := 1 - 0.05 }

/-! ## Concrete instances used as witnesses and counterexamples -/

def Pw1 : Planet := Planet.new (Distance.from_meters 1) (Parent.new (Mass.from_kilograms 1))

def Pw2 : Planet := Planet.new (Distance.from_meters 2) (Parent.new (Mass.from_kilograms 2))

/-- A parent whose gravitational parameter is exactly `2/3`. -/
def Par0 : Parent := Parent.new (Mass.from_kilograms (2 / (3 * GRAVITATIONAL_CONSTANT)))

/-- The transfer `Transfer::new` builds from orbits of radius 1 m and 3 m
around `Par0` (an outward Hohmann transfer with launch velocity exactly 1). -/
def T0 : Transfer :=
  { origin := Planet.new (Distance.from_meters 1) Par0
    target := Planet.new (Distance.from_meters 3) Par0
    parent := Par0
    add_delta_v := Velocity.from_meters_per_second 0.0 }

/-- A parent whose gravitational parameter is exactly `1`. -/
def Par1 : Parent := Parent.new (Mass.from_kilograms (1 / GRAVITATIONAL_CONSTANT))

/-- The transfer `Transfer::new` builds from two coincident circular orbits
of radius 1 m around `Par1` (the degenerate same-orbit Hohmann transfer). -/
def T1 : Transfer :=
  { origin := Planet.new (Distance.from_meters 1) Par1
    target := Planet.new (Distance.from_meters 1) Par1
    parent := Par1
    add_delta_v := Velocity.from_meters_per_second 0.0 }

end

noncomputable section

/-! ## Consistency invariants (spec section 3: every derived unit field equals
the canonical field divided by the unit's fixed conversion constant). -/

/-- All fields of a `Mass` represent the same physical mass. -/
def Mass.consistent (x : Mass) : Prop :=
  x.lunar = x.kg / KILOGRAMS_LUNAR ∧ x.earth = x.kg / KILOGRAMS_EARTH ∧
  x.jovian = x.kg / KILOGRAMS_JOVIAN ∧ x.solar = x.kg / KILOGRAMS_SOLAR ∧
  x.gravitational_parameter = x.kg * GRAVITATIONAL_CONSTANT

/-- All fields of a `Distance` represent the same physical distance. -/
def Distance.consistent (x : Distance) : Prop :=
  x.km = x.m / 1E3 ∧ x.au = x.m / METERS_AU

/-- All fields of a `Velocity` represent the same physical velocity. -/
def Velocity.consistent (x : Velocity) : Prop :=
  x.mmps = x.mps / 1E-3 ∧ x.kps = x.mps / 1E3

/-- All fields of a `Duration` represent the same physical duration. -/
def Duration.consistent (x : Duration) : Prop :=
  x.min = x.s / SECONDS_MINUTE ∧ x.h = x.s / SECONDS_HOUR ∧ x.d = x.s / SECONDS_DAY ∧
  x.m = x.s / SECONDS_MONTH ∧ x.y = x.s / SECONDS_YEAR

/-- C9: every Mass, Distance, Velocity, or Duration value produced by any
constructor, any `*_updated` operation, or any arithmetic operation (add,
subtract, scalar multiply, scalar divide) satisfies the consistency
invariant: every derived unit field equals the canonical field divided by
that unit's fixed conversion constant, and Mass's gravitational parameter
equals its kilogram value times the gravitational constant.  (`Mass` has no
arithmetic operators in the source; the `calculus!` macro instantiates them
for `Duration`, `Distance` and `Velocity`.) -/
theorem quantities_consistent :
    (∀ x : ℝ, (Mass.from_kilograms x).consistent ∧ (Mass.from_lunar x).consistent ∧
      (Mass.from_earth x).consistent ∧ (Mass.from_jovian x).consistent ∧
      (Mass.from_solar x).consistent ∧
      (Distance.from_meters x).consistent ∧ (Distance.from_kilometers x).consistent ∧
      (Distance.from_astronomical_unit x).consistent ∧
      (Velocity.from_meters_per_second x).consistent ∧
      (Velocity.from_millimeters_per_second x).consistent ∧
      (Velocity.from_kilometers_per_second x).consistent ∧
      (Duration.from_seconds x).consistent ∧ (Duration.from_minutes x).consistent ∧
      (Duration.from_hours x).consistent ∧ (Duration.from_days x).consistent ∧
      (Duration.from_months x).consistent ∧ (Duration.from_years x).consistent) ∧
    (∀ a : Mass, a.kg_updated.consistent ∧ a.lunar_updated.consistent ∧
      a.earth_updated.consistent ∧ a.jovian_updated.consistent ∧
      a.solar_updated.consistent) ∧
    (∀ a : Distance, a.m_updated.consistent ∧ a.km_updated.consistent ∧
      a.au_updated.consistent) ∧
    (∀ a : Velocity, a.mmps_updated.consistent ∧ a.mps_updated.consistent ∧
      a.kps_updated.consistent) ∧
    (∀ a b : Distance, (a.add b).consistent ∧ (a.sub b).consistent) ∧
    (∀ (a : Distance) (k : ℝ), (a.mul k).consistent ∧ (a.div k).consistent) ∧
    (∀ a b : Velocity, (a.add b).consistent ∧ (a.sub b).consistent) ∧
    (∀ (a : Velocity) (k : ℝ), (a.mul k).consistent ∧ (a.div k).consistent) ∧
    (∀ a b : Duration, (a.add b).consistent ∧ (a.sub b).consistent) ∧
    (∀ (a : Duration) (k : ℝ), (a.mul k).consistent ∧ (a.div k).consistent) := by
  refine ⟨fun x => ?_, fun a => ?_, fun a => ?_, fun a => ?_, fun a b => ?_,
    fun a k => ?_, fun a b => ?_, fun a k => ?_, fun a b => ?_, fun a k => ?_⟩
  all_goals repeat' apply And.intro
  all_goals rfl

/-- C10: `set_delta_v` modifies only the additional-delta-v field: origin,
target and parent are unchanged, and `velocity_hohmann`, `delta_v_hohmann`,
`min_velocity` and `max_velocity` return the same values before and after
any `set_delta_v` call. -/
theorem set_delta_v_frame (t : Transfer) (dv : Velocity) :
    (t.set_delta_v dv).origin = t.origin ∧ (t.set_delta_v dv).target = t.target ∧
    (t.set_delta_v dv).parent = t.parent ∧
    (t.set_delta_v dv).velocity_hohmann = t.velocity_hohmann ∧
    (t.set_delta_v dv).delta_v_hohmann = t.delta_v_hohmann ∧
    (t.set_delta_v dv).min_velocity = t.min_velocity ∧
    (t.set_delta_v dv).max_velocity = t.max_velocity :=
  ⟨rfl, rfl, rfl, rfl, rfl, rfl, rfl⟩

/-- C8: reconstructing a positive Mass from any one of its derived unit
fields (lunar, earth, jovian, solar, via the corresponding `*_updated`
operation) reproduces the original kilogram value within `1e-9` relative
tolerance (in the exact real model, the round trip is exact). -/
theorem mass_roundtrip (v : ℝ) (hv : 0 < v) :
    |(Mass.from_kilograms v).lunar_updated.kg - v| ≤ 1E-9 * v ∧
    |(Mass.from_kilograms v).earth_updated.kg - v| ≤ 1E-9 * v ∧
    |(Mass.from_kilograms v).jovian_updated.kg - v| ≤ 1E-9 * v ∧
    |(Mass.from_kilograms v).solar_updated.kg - v| ≤ 1E-9 * v := by
  have e1 : (Mass.from_kilograms v).lunar_updated.kg = v := by
    show v / KILOGRAMS_LUNAR * KILOGRAMS_LUNAR = v
    rw [div_mul_cancel₀]
    norm_num [KILOGRAMS_LUNAR]
  have e2 : (Mass.from_kilograms v).earth_updated.kg = v := by
    show v / KILOGRAMS_EARTH * KILOGRAMS_EARTH = v
    rw [div_mul_cancel₀]
    norm_num [KILOGRAMS_EARTH]
  have e3 : (Mass.from_kilograms v).jovian_updated.kg = v := by
    show v / KILOGRAMS_JOVIAN * KILOGRAMS_JOVIAN = v
    rw [div_mul_cancel₀]
    norm_num [KILOGRAMS_JOVIAN]
  have e4 : (Mass.from_kilograms v).solar_updated.kg = v := by
    show v / KILOGRAMS_SOLAR * KILOGRAMS_SOLAR = v
    rw [div_mul_cancel₀]
    norm_num [KILOGRAMS_SOLAR]
  rw [e1, e2, e3, e4, sub_self, abs_zero]
  refine ⟨?_, ?_, ?_, ?_⟩ <;> positivity

/-- Witness for C8 at `v = 2`. -/
theorem mass_roundtrip_witness :
    (0 : ℝ) < 2 ∧ |(Mass.from_kilograms 2).lunar_updated.kg - 2| ≤ 1E-9 * 2 :=
  ⟨by norm_num, (mass_roundtrip 2 (by norm_num)).1⟩

end

noncomputable section

/-- C5: Transfer construction fails fatally (modelled: returns `none`) if and
only if the two parents' gravitational parameters differ; when they are
equal, construction succeeds and stores the shared parent (the origin's)
with a zero additional delta-v. -/
theorem transfer_new_spec (origin target : Planet) :
    (origin.parent.mass.gravitational_parameter ≠
        target.parent.mass.gravitational_parameter →
      Transfer.new origin target = none) ∧
    (origin.parent.mass.gravitational_parameter =
        target.parent.mass.gravitational_parameter →
      Transfer.new origin target =
        some { origin := origin, target := target, parent := origin.parent,
               add_delta_v := Velocity.from_meters_per_second 0.0 }) := by
  constructor
  · intro h
    simp only [Transfer.new, if_neg h]
  · intro h
    simp only [Transfer.new, if_pos h]

/-- Witness for C5: equal parents succeed, different parents fail. -/
theorem transfer_new_spec_witness :
    Transfer.new Pw1 Pw1 =
      some { origin := Pw1, target := Pw1, parent := Pw1.parent,
             add_delta_v := Velocity.from_meters_per_second 0.0 } ∧
    Transfer.new Pw1 Pw2 = none :=
  ⟨(transfer_new_spec Pw1 Pw1).2 rfl,
   (transfer_new_spec Pw1 Pw2).1 (by
      show (1 : ℝ) * GRAVITATIONAL_CONSTANT ≠ 2 * GRAVITATIONAL_CONSTANT
      norm_num [GRAVITATIONAL_CONSTANT])⟩

open Classical in
/-- C7: `smallest_duration` scans years, months, days, hours, minutes,
seconds in that order and returns the first unit whose value is `≥ 1.0`;
if no unit reaches `1.0` it returns the seconds value. -/
theorem smallest_duration_spec (dur : Duration) :
    dur.smallest_duration =
      if 1 ≤ dur.y then (dur.y, "years")
      else if 1 ≤ dur.m then (dur.m, "months")
      else if 1 ≤ dur.d then (dur.d, "days")
      else if 1 ≤ dur.h then (dur.h, "hours")
      else if 1 ≤ dur.min then (dur.min, "minutes")
      else (dur.s, "seconds") := by
  unfold Duration.smallest_duration Duration.iter_with_string
  by_cases h1 : 1 ≤ dur.y
  · simp [List.find?, h1]
  · by_cases h2 : 1 ≤ dur.m
    · simp [List.find?, h1, h2]
    · by_cases h3 : 1 ≤ dur.d
      · simp [List.find?, h1, h2, h3]
      · by_cases h4 : 1 ≤ dur.h
        · simp [List.find?, h1, h2, h3, h4]
        · by_cases h5 : 1 ≤ dur.min
          · simp [List.find?, h1, h2, h3, h4, h5]
          · by_cases h6 : 1 ≤ dur.s
            · simp [List.find?, h1, h2, h3, h4, h5, h6]
            · simp [List.find?, h1, h2, h3, h4, h5, h6]

end

noncomputable section

/-- For a positive modulus and nonnegative dividend, Rust `%` lands in `[0, y)`. -/
theorem rustFmod_nonneg_mem {x y : ℝ} (hy : 0 < y) (hx : 0 ≤ x) :
    rustFmod x y ∈ Set.Ico 0 y := by
  have hr : 0 ≤ x / y := div_nonneg hx hy.le
  have hmod : rustFmod x y = y * Int.fract (x / y) := by
    rw [rustFmod, if_pos hr, Int.fract]
    field_simp
  rw [hmod]
  constructor
  · exact mul_nonneg hy.le (Int.fract_nonneg _)
  · calc y * Int.fract (x / y) < y * 1 := (mul_lt_mul_left hy).2 (Int.fract_lt_one _)
      _ = y := mul_one y

/-- For a positive modulus and negative dividend, Rust `%` lands in `(-y, 0]`. -/
theorem rustFmod_neg_mem {x y : ℝ} (hy : 0 < y) (hx : x < 0) :
    rustFmod x y ∈ Set.Ioc (-y) 0 := by
  have hr : ¬0 ≤ x / y := by
    rw [not_le]
    exact div_neg_of_neg_of_pos hx hy
  rw [rustFmod, if_neg hr]
  have h1 : (⌈x / y⌉ : ℝ) < x / y + 1 := Int.ceil_lt_add_one _
  have h2 : x / y ≤ (⌈x / y⌉ : ℝ) := Int.le_ceil _
  have hxy : y * (x / y) = x := by field_simp
  have hm1 : y * (⌈x / y⌉ : ℝ) < y * (x / y + 1) := (mul_lt_mul_left hy).2 h1
  have hm2 : y * (x / y) ≤ y * (⌈x / y⌉ : ℝ) := (mul_le_mul_left hy).2 h2
  have hd : y * (x / y + 1) = x + y := by rw [mul_add, hxy, mul_one]
  constructor
  · linarith
  · linarith

/-- The `Protractor::new` normalization maps every angle into `[-π, π)`. -/
theorem protractor_angle_mem (a len : ℝ) :
    (Protractor.new a len).angle ∈ Set.Ico (-π) π := by
  have hπ : (0 : ℝ) < π := Real.pi_pos
  have hT : (0 : ℝ) < TAU := by rw [TAU]; positivity
  have h1 : -TAU < rustFmod a TAU := by
    rcases le_or_lt 0 a with h | h
    · have := (rustFmod_nonneg_mem hT h).1
      linarith
    · exact (rustFmod_neg_mem hT h).1
  have h0 : 0 ≤ rustFmod a TAU + TAU + π := by linarith
  have h2 := rustFmod_nonneg_mem hT h0
  have hTe : TAU = 2 * π := rfl
  show rustFmod (rustFmod a TAU + TAU + π) TAU - π ∈ Set.Ico (-π) π
  constructor
  · have := h2.1
    simp only [Set.mem_Ico] at h2
    linarith [h2.1]
  · have := h2.2
    simp only [Set.mem_Ico] at h2
    linarith [h2.2]

/-- C3 (amended): the phase angle (`target_true_anomaly_departure`), after
the `Protractor::new` normalization applied by the presentation layer, lies
in the half-open interval `[-π, π)` — closed at `-π`, open at `π` (not the
claimed `(-π, π]`). -/
theorem phase_angle_normalized (t : Transfer) (len : ℝ) :
    (Protractor.new t.target_true_anomaly_departure len).angle ∈ Set.Ico (-π) π :=
  protractor_angle_mem _ len

/-- Counterexample for C3 as stated: the normalization sends the phase value
`π` to `-π`, which is outside the claimed half-open interval `(-π, π]`. -/
theorem protractor_pi_not_mem :
    (Protractor.new π 1).angle ∉ Set.Ioc (-π) π := by
  have hπ : (0 : ℝ) < π := Real.pi_pos
  have hT : TAU = 2 * π := rfl
  have hTne : TAU ≠ 0 := by rw [hT]; positivity
  have e1 : rustFmod π TAU = π := by
    have hd : π / TAU = 1 / 2 := by
      rw [hT, div_eq_iff (by positivity : (2 : ℝ) * π ≠ 0)]
      ring
    rw [rustFmod, hd]
    norm_num
  have e2 : rustFmod π TAU + TAU + π = 2 * TAU := by rw [e1, hT]; ring
  have e3 : rustFmod (2 * TAU) TAU = 0 := by
    have hd : 2 * TAU / TAU = 2 := by
      field_simp
    rw [rustFmod, hd]
    norm_num
    ring
  show rustFmod (rustFmod π TAU + TAU + π) TAU - π ∉ Set.Ioc (-π) π
  rw [e2, e3]
  simp only [Set.mem_Ioc, zero_sub, not_and]
  intro h
  exact absurd h (lt_irrefl _)

end

noncomputable section

/-! ## Unfolding lemmas for the scalar content of the transfer solver -/

theorem Velocity.from_mps_mps (v : ℝ) : (Velocity.from_meters_per_second v).mps = v := rfl

theorem Velocity.add_mps (a b : Velocity) : (a.add b).mps = a.mps + b.mps := rfl

theorem Velocity.sub_mps (a b : Velocity) : (a.sub b).mps = a.mps - b.mps := rfl

theorem Velocity.mul_mps (a : Velocity) (k : ℝ) : (a.mul k).mps = a.mps * k := rfl

theorem Distance.from_meters_m (x : ℝ) : (Distance.from_meters x).m = x := rfl

theorem Planet.orbital_velocity_mps (p : Planet) :
    p.orbital_velocity.mps = Real.sqrt (p.parent.mass.gravitational_parameter / p.sma.m) := rfl

theorem Transfer.velocity_hohmann_mps (t : Transfer) :
    t.velocity_hohmann.mps =
      t.origin.orbital_velocity.mps *
        Real.sqrt ((2 * t.target.sma.m) / (t.origin.sma.m + t.target.sma.m)) := rfl

theorem Transfer.delta_v_hohmann_mps (t : Transfer) :
    t.delta_v_hohmann.mps = t.velocity_hohmann.mps - t.origin.orbital_velocity.mps := rfl

theorem Transfer.launch_velocity_mps (t : Transfer) :
    t.launch_velocity.mps = t.velocity_hohmann.mps + t.add_delta_v.mps := rfl

theorem Transfer.sma_m (t : Transfer) :
    t.sma.m = (t.origin.sma.m * t.parent.mass.gravitational_parameter) /
      (2 * t.parent.mass.gravitational_parameter -
        t.origin.sma.m * t.launch_velocity.mps ^ 2) := rfl

theorem Transfer.eccentricity_def (t : Transfer) :
    t.eccentricity = 1 - t.origin.sma.m / t.sma.m := rfl

/-- The scalar identity behind `Transfer::eccentricity`: `1 − s/sma` with
`sma = s·μ/(2μ − s·v²)` equals `s·v²/μ − 1` (for the parabolic case
`2μ = s·v²` the two sides still agree under the `x/0 = 0` convention). -/
theorem ecc_formula (s μ v : ℝ) (hs : s ≠ 0) (hμ : μ ≠ 0) :
    1 - s / (s * μ / (2 * μ - s * v ^ 2)) = s * v ^ 2 / μ - 1 := by
  rcases eq_or_ne (2 * μ - s * v ^ 2) 0 with h | h
  · have hv : s * v ^ 2 = 2 * μ := by linarith
    rw [h, div_zero, div_zero, hv]
    field_simp
    norm_num
  · field_simp
    ring

/-- `Transfer::eccentricity` equals `origin.sma·launch_velocity²/μ − 1`. -/
theorem Transfer.eccentricity_eq (t : Transfer)
    (hs : t.origin.sma.m ≠ 0) (hμ : t.parent.mass.gravitational_parameter ≠ 0) :
    t.eccentricity = t.origin.sma.m * t.launch_velocity.mps ^ 2 /
      t.parent.mass.gravitational_parameter - 1 := by
  rw [Transfer.eccentricity_def, Transfer.sma_m]
  exact ecc_formula _ _ _ hs hμ

end

noncomputable section

theorem GC_ne : GRAVITATIONAL_CONSTANT ≠ 0 := by norm_num [GRAVITATIONAL_CONSTANT]

theorem T0_gp : T0.parent.mass.gravitational_parameter = 2 / 3 := by
  show 2 / (3 * GRAVITATIONAL_CONSTANT) * GRAVITATIONAL_CONSTANT = 2 / 3
  have h := GC_ne
  field_simp
  ring

theorem T0_launch : T0.launch_velocity.mps = 1 := by
  rw [Transfer.launch_velocity_mps, Transfer.velocity_hohmann_mps, Planet.orbital_velocity_mps]
  rw [show T0.origin.parent.mass.gravitational_parameter = 2 / 3 from T0_gp]
  rw [show T0.origin.sma.m = 1 from rfl, show T0.target.sma.m = 3 from rfl]
  rw [show T0.add_delta_v.mps = 0 by norm_num [T0, Velocity.from_meters_per_second]]
  rw [show (2 : ℝ) / 3 / 1 = 2 / 3 by norm_num]
  rw [show (2 : ℝ) * 3 / (1 + 3) = 3 / 2 by norm_num]
  rw [← Real.sqrt_mul (by norm_num : (0 : ℝ) ≤ 2 / 3)]
  rw [show (2 : ℝ) / 3 * (3 / 2) = 1 by norm_num]
  rw [Real.sqrt_one]
  norm_num

theorem T0_ecc : T0.eccentricity = 1 / 2 := by
  rw [Transfer.eccentricity_def, Transfer.sma_m, T0_gp, T0_launch,
    show T0.origin.sma.m = 1 from rfl]
  norm_num

/-- C1 (amended): for every Transfer built from planets with positive
semi-major axes and a positive parent gravitational parameter,
`eccentricity()` returns `origin.sma·launch_velocity()²/μ − 1` — the
negation of the claimed expression.  It is exactly 0 when the launch
velocity equals the circular orbital velocity; it is greater than −1
whenever the launch velocity is positive, below 1 (elliptical) exactly when
`s·v² < 2μ`, above 1 (hyperbolic) exactly when `s·v² > 2μ` — so a
hyperbolic transfer has eccentricity greater than 1, never negative — and
positive exactly when `s·v² > μ`. -/
theorem eccentricity_spec (t : Transfer)
    (hpar : t.origin.parent = t.parent)
    (hs : 0 < t.origin.sma.m)
    (hμ : 0 < t.parent.mass.gravitational_parameter) :
    t.eccentricity = t.origin.sma.m * t.launch_velocity.mps ^ 2 /
        t.parent.mass.gravitational_parameter - 1 ∧
    (t.launch_velocity.mps = t.origin.orbital_velocity.mps → t.eccentricity = 0) ∧
    (0 < t.launch_velocity.mps →
      -1 < t.eccentricity ∧
      (t.eccentricity < 1 ↔ t.origin.sma.m * t.launch_velocity.mps ^ 2 <
        2 * t.parent.mass.gravitational_parameter) ∧
      (1 < t.eccentricity ↔ 2 * t.parent.mass.gravitational_parameter <
        t.origin.sma.m * t.launch_velocity.mps ^ 2) ∧
      (0 < t.eccentricity ↔ t.parent.mass.gravitational_parameter <
        t.origin.sma.m * t.launch_velocity.mps ^ 2)) := by
  have hsne : t.origin.sma.m ≠ 0 := hs.ne'
  have hμne : t.parent.mass.gravitational_parameter ≠ 0 := hμ.ne'
  have heq := t.eccentricity_eq hsne hμne
  have hmul : t.eccentricity * t.parent.mass.gravitational_parameter =
      t.origin.sma.m * t.launch_velocity.mps ^ 2 -
        t.parent.mass.gravitational_parameter := by
    rw [heq]
    field_simp
  refine ⟨heq, ?_, ?_⟩
  · intro hcirc
    have hvv : t.launch_velocity.mps ^ 2 =
        t.parent.mass.gravitational_parameter / t.origin.sma.m := by
      rw [hcirc, Planet.orbital_velocity_mps, hpar]
      exact Real.sq_sqrt (by positivity)
    rw [heq, hvv]
    field_simp
  · intro hv
    refine ⟨?_, ?_, ?_, ?_⟩
    · rw [heq]
      have : 0 < t.origin.sma.m * t.launch_velocity.mps ^ 2 /
          t.parent.mass.gravitational_parameter := by positivity
      linarith
    · constructor <;> intro h <;> nlinarith [hmul, hμ, h]
    · constructor <;> intro h <;> nlinarith [hmul, hμ, h]
    · constructor <;> intro h <;> nlinarith [hmul, hμ, h]

/-- Witness for C1 (amended) at the concrete transfer `T0`. -/
theorem eccentricity_spec_witness :
    T0.origin.parent = T0.parent ∧ 0 < T0.origin.sma.m ∧
    0 < T0.parent.mass.gravitational_parameter ∧
    T0.eccentricity = T0.origin.sma.m * T0.launch_velocity.mps ^ 2 /
      T0.parent.mass.gravitational_parameter - 1 :=
  ⟨rfl, one_pos, by rw [T0_gp]; norm_num,
   (eccentricity_spec T0 rfl one_pos (by rw [T0_gp]; norm_num)).1⟩

/-- Counterexample for C1 as stated: `T0` is built by `Transfer::new` from
planets with positive semi-major axes (1 m and 3 m) and positive parent
mass (μ = 2/3), yet its eccentricity (1/2) differs from the claimed
`1 − origin.sma·launch_velocity²/μ` (which is −1/2). -/
theorem eccentricity_counterexample :
    Transfer.new (Planet.new (Distance.from_meters 1) Par0)
        (Planet.new (Distance.from_meters 3) Par0) = some T0 ∧
    T0.eccentricity ≠ 1 - T0.origin.sma.m * T0.launch_velocity.mps ^ 2 /
      T0.parent.mass.gravitational_parameter := by
  constructor
  · exact (transfer_new_spec _ _).2 rfl
  · rw [T0_ecc, T0_gp, T0_launch, show T0.origin.sma.m = 1 from rfl]
    norm_num

end

noncomputable section

/-- C6: for all positive origin and target semi-major axes and positive
parent gravitational parameter, `delta_v_hohmann()` is strictly positive
when `target.sma > origin.sma` and strictly negative when
`target.sma < origin.sma`. -/
theorem delta_v_hohmann_sign (t : Transfer)
    (hs : 0 < t.origin.sma.m) (ht : 0 < t.target.sma.m)
    (hμ : 0 < t.origin.parent.mass.gravitational_parameter) :
    (t.origin.sma.m < t.target.sma.m → 0 < t.delta_v_hohmann.mps) ∧
    (t.target.sma.m < t.origin.sma.m → t.delta_v_hohmann.mps < 0) := by
  have hvo : 0 < t.origin.orbital_velocity.mps := by
    rw [Planet.orbital_velocity_mps]
    exact Real.sqrt_pos.mpr (by positivity)
  constructor
  · intro hlt
    have hR : 1 < (2 * t.target.sma.m) / (t.origin.sma.m + t.target.sma.m) := by
      rw [lt_div_iff₀ (by positivity)]
      linarith
    have hsq : 1 < Real.sqrt ((2 * t.target.sma.m) / (t.origin.sma.m + t.target.sma.m)) := by
      calc (1 : ℝ) = Real.sqrt 1 := Real.sqrt_one.symm
        _ < _ := Real.sqrt_lt_sqrt (by norm_num) hR
    rw [Transfer.delta_v_hohmann_mps, Transfer.velocity_hohmann_mps]
    nlinarith [hvo, hsq]
  · intro hlt
    have hR : (2 * t.target.sma.m) / (t.origin.sma.m + t.target.sma.m) < 1 := by
      rw [div_lt_one (by positivity)]
      linarith
    have hsq : Real.sqrt ((2 * t.target.sma.m) / (t.origin.sma.m + t.target.sma.m)) < 1 := by
      calc Real.sqrt ((2 * t.target.sma.m) / (t.origin.sma.m + t.target.sma.m))
          < Real.sqrt 1 := Real.sqrt_lt_sqrt (by positivity) hR
        _ = 1 := Real.sqrt_one
    rw [Transfer.delta_v_hohmann_mps, Transfer.velocity_hohmann_mps]
    nlinarith [hvo, hsq]

/-- Witness for C6 at `T0` (origin 1 m, target 3 m, μ = 2/3). -/
theorem delta_v_hohmann_sign_witness :
    0 < T0.origin.sma.m ∧ 0 < T0.target.sma.m ∧
    0 < T0.origin.parent.mass.gravitational_parameter ∧
    T0.origin.sma.m < T0.target.sma.m ∧ 0 < T0.delta_v_hohmann.mps :=
  ⟨one_pos, by show (0 : ℝ) < 3; norm_num,
   by rw [show T0.origin.parent.mass.gravitational_parameter = 2 / 3 from T0_gp]; norm_num,
   by show (1 : ℝ) < 3; norm_num,
   (delta_v_hohmann_sign T0 one_pos (by show (0 : ℝ) < 3; norm_num)
     (by rw [show T0.origin.parent.mass.gravitational_parameter = 2 / 3 from T0_gp]; norm_num)).1
     (by show (1 : ℝ) < 3; norm_num)⟩

end

noncomputable section

theorem T1_gp : T1.parent.mass.gravitational_parameter = 1 := by
  show 1 / GRAVITATIONAL_CONSTANT * GRAVITATIONAL_CONSTANT = 1
  have h := GC_ne
  field_simp

theorem round_to_zero : round_to 0 5 = 0 := by
  rw [round_to, rustRound]
  norm_num

/-- C2 (amended): for every Transfer whose origin and target semi-major axes
are equal and whose additional delta-v is zero (the freshly constructed,
Hohmann default), `eccentricity()` returns 0 but `time_of_flight()` returns
0, not half the circular orbital period: the departure and arrival anomalies
coincide, so their mean-anomaly difference vanishes.  (In the exact real
model the zero eccentricity makes the anomaly expression `0/0`, read as 0;
in `f64` it is `NaN` — in neither case is half the period produced.) -/
theorem degenerate_transfer_spec (t : Transfer)
    (hpar : t.origin.parent = t.parent)
    (heqsma : t.origin.sma.m = t.target.sma.m)
    (hs : 0 < t.origin.sma.m)
    (hμ : 0 < t.parent.mass.gravitational_parameter)
    (hadd : t.add_delta_v = Velocity.from_meters_per_second 0.0) :
    t.eccentricity = 0 ∧ t.time_of_flight.s = 0 := by
  have hv : t.launch_velocity.mps =
      Real.sqrt (t.parent.mass.gravitational_parameter / t.origin.sma.m) := by
    rw [Transfer.launch_velocity_mps, Transfer.velocity_hohmann_mps,
      Planet.orbital_velocity_mps, hpar, hadd, Velocity.from_mps_mps, ← heqsma]
    rw [show (2 * t.origin.sma.m) / (t.origin.sma.m + t.origin.sma.m) = 1 by
      rw [div_eq_one_iff_eq (by positivity)]; ring]
    rw [Real.sqrt_one, mul_one]
    norm_num
  have hecc : t.eccentricity = 0 := by
    rw [t.eccentricity_eq hs.ne' hμ.ne', hv, Real.sq_sqrt (by positivity)]
    field_simp
  refine ⟨hecc, ?_⟩
  have hta : ∀ r : Distance, t.true_anomaly r = π / 2 := by
    intro r
    rw [Transfer.true_anomaly, Transfer.acos_argument, hecc]
    rw [div_zero, round_to_zero, Real.arccos_zero]
  have heac : t.eccentric_anomaly_cos (π / 2) = 0 := by
    rw [Transfer.eccentric_anomaly_cos, hecc, Real.cos_pi_div_two]
    norm_num
  have hmean : t.mean_anomaly 0 = π / 2 := by
    rw [Transfer.mean_anomaly, if_pos (by rw [hecc]; norm_num : |t.eccentricity| < 1)]
    rw [Real.arccos_zero, hecc]
    ring
  rw [Transfer.time_of_flight, Transfer.target_true_anomaly_arrival,
    Transfer.origin_true_anomaly_departure, hta, hta, heac, hmean]
  show (π / 2 - π / 2) * _ = 0
  rw [sub_self, zero_mul]

/-- Witness for C2 (amended) at the concrete degenerate transfer `T1`. -/
theorem degenerate_transfer_spec_witness :
    T1.origin.parent = T1.parent ∧ T1.origin.sma.m = T1.target.sma.m ∧
    0 < T1.origin.sma.m ∧ 0 < T1.parent.mass.gravitational_parameter ∧
    T1.add_delta_v = Velocity.from_meters_per_second 0.0 ∧
    (T1.eccentricity = 0 ∧ T1.time_of_flight.s = 0) :=
  ⟨rfl, rfl, one_pos, by rw [T1_gp]; norm_num, rfl,
   degenerate_transfer_spec T1 rfl rfl one_pos (by rw [T1_gp]; norm_num) rfl⟩

theorem T1_period : T1.origin.period = 2 * π := by
  rw [Planet.period, show T1.origin.parent.mass.gravitational_parameter = 1 from T1_gp,
    show T1.origin.sma.m = 1 from rfl]
  norm_num

/-- Counterexample for C2 as stated: `T1` is the freshly constructed
transfer between two coincident orbits (radius 1 m, μ = 1); its time of
flight is 0 seconds, while half the circular orbital period is `π` seconds. -/
theorem degenerate_tof_counterexample :
    Transfer.new (Planet.new (Distance.from_meters 1) Par1)
        (Planet.new (Distance.from_meters 1) Par1) = some T1 ∧
    T1.origin.sma.m = T1.target.sma.m ∧
    T1.time_of_flight.s ≠ T1.origin.period / 2 := by
  refine ⟨(transfer_new_spec _ _).2 rfl, rfl, ?_⟩
  have h2 : T1.time_of_flight.s = 0 := by
    have hv : T1.launch_velocity.mps = 1 := by
      rw [Transfer.launch_velocity_mps, Transfer.velocity_hohmann_mps,
        Planet.orbital_velocity_mps,
        show T1.origin.parent.mass.gravitational_parameter = 1 from T1_gp,
        show T1.origin.sma.m = 1 from rfl, show T1.target.sma.m = 1 from rfl,
        show T1.add_delta_v.mps = 0 by norm_num [T1, Velocity.from_meters_per_second]]
      rw [show (1 : ℝ) / 1 = 1 by norm_num, show (2 : ℝ) * 1 / (1 + 1) = 1 by norm_num]
      rw [Real.sqrt_one]
      norm_num
    have hecc : T1.eccentricity = 0 := by
      rw [T1.eccentricity_eq (by show (1 : ℝ) ≠ 0; norm_num : T1.origin.sma.m ≠ 0)
        (by rw [T1_gp]; norm_num), hv, T1_gp, show T1.origin.sma.m = 1 from rfl]
      norm_num
    have hta : ∀ r : Distance, T1.true_anomaly r = π / 2 := by
      intro r
      rw [Transfer.true_anomaly, Transfer.acos_argument, hecc]
      rw [div_zero, round_to_zero, Real.arccos_zero]
    have heac : T1.eccentric_anomaly_cos (π / 2) = 0 := by
      rw [Transfer.eccentric_anomaly_cos, hecc, Real.cos_pi_div_two]
      norm_num
    have hmean : T1.mean_anomaly 0 = π / 2 := by
      rw [Transfer.mean_anomaly, if_pos (by rw [hecc]; norm_num : |T1.eccentricity| < 1)]
      rw [Real.arccos_zero, hecc]
      ring
    rw [Transfer.time_of_flight, Transfer.target_true_anomaly_arrival,
      Transfer.origin_true_anomaly_departure, hta, hta, heac, hmean]
    show (π / 2 - π / 2) * _ = 0
    rw [sub_self, zero_mul]
  rw [h2, T1_period]
  have := Real.pi_pos
  intro hcon
  rw [eq_comm, div_eq_zero_iff] at hcon
  rcases hcon with h | h
  · linarith
  · norm_num at h

end

noncomputable section

theorem rustRound_le {z : ℝ} {n : ℤ} (h : z ≤ n) : rustRound z ≤ n := by
  rw [rustRound]
  split_ifs with h0
  · have : ⌊z + 1 / 2⌋ < n + 1 := by
      rw [Int.floor_lt]
      push_cast
      linarith
    omega
  · rw [Int.ceil_le]
    linarith

theorem rustRound_ge {z : ℝ} {n : ℤ} (h : (n : ℝ) ≤ z) : n ≤ rustRound z := by
  rw [rustRound]
  split_ifs with h0
  · rw [Int.le_floor]
    linarith
  · have : n - 1 < ⌈z - 1 / 2⌉ := by
      rw [Int.lt_ceil]
      push_cast
      linarith
    omega

/-- Rounding to 5 decimal places keeps values inside `[-1, 1]` inside `[-1, 1]`. -/
theorem round_to_mem_Icc {x : ℝ} (hx : x ∈ Set.Icc (-1 : ℝ) 1) :
    round_to x 5 ∈ Set.Icc (-1 : ℝ) 1 := by
  obtain ⟨hl, hu⟩ := hx
  have hp : (0 : ℝ) < (10 : ℝ) ^ (5 : ℕ) := by norm_num
  have hzu : x * (10 : ℝ) ^ (5 : ℕ) ≤ ((100000 : ℤ) : ℝ) := by
    push_cast
    nlinarith
  have hzl : ((-100000 : ℤ) : ℝ) ≤ x * (10 : ℝ) ^ (5 : ℕ) := by
    push_cast
    nlinarith
  have hub := rustRound_le hzu
  have hlb := rustRound_ge hzl
  rw [round_to]
  constructor
  · rw [le_div_iff₀ hp]
    calc (-1 : ℝ) * (10 : ℝ) ^ (5 : ℕ) = ((-100000 : ℤ) : ℝ) := by push_cast; ring
      _ ≤ (rustRound (x * (10 : ℝ) ^ (5 : ℕ)) : ℝ) := by exact_mod_cast hlb
  · rw [div_le_one hp]
    calc (rustRound (x * (10 : ℝ) ^ (5 : ℕ)) : ℝ) ≤ ((100000 : ℤ) : ℝ) := by exact_mod_cast hub
      _ = (10 : ℝ) ^ (5 : ℕ) := by push_cast; ring

theorem round_to_one : round_to 1 5 = 1 := by
  rw [round_to, rustRound]
  norm_num

theorem round_to_neg_one : round_to (-1) 5 = -1 := by
  rw [round_to, rustRound]
  norm_num
  have hc : ⌈-(200001 / 2 : ℝ)⌉ = -100000 := by
    rw [Int.ceil_eq_iff]
    push_cast
    constructor <;> norm_num
  rw [hc]
  norm_num

/-- Scalar core of the acos-argument bound: with the eccentricity pinned on
the correct side of `(τ−s)/(s+τ)` by the velocity range, the arrival
argument `(s·(1+e)/τ − 1)/e` lies in `[-1, 1]`. -/
theorem acosArg_core {s τ e : ℝ} (hs : 0 < s) (hτ : 0 < τ)
    (hne : e ≠ 0) (hlb : -1 < e)
    (hbound : (s ≤ τ ∧ (τ - s) / (s + τ) ≤ e) ∨ (τ ≤ s ∧ e ≤ (τ - s) / (s + τ))) :
    -1 ≤ (s * (1 + e) / τ - 1) / e ∧ (s * (1 + e) / τ - 1) / e ≤ 1 := by
  rcases hbound with ⟨hsτ, hel⟩ | ⟨hsτ, heu⟩
  · have hq : (0 : ℝ) ≤ (τ - s) / (s + τ) := div_nonneg (by linarith) (by positivity)
    have he : 0 < e := lt_of_le_of_ne (le_trans hq hel) (Ne.symm hne)
    have hkey : τ - s ≤ e * (s + τ) := by
      have := (div_le_iff₀ (by positivity : (0 : ℝ) < s + τ)).1 hel
      linarith
    have hN_ub : s * (1 + e) / τ - 1 ≤ e := by
      have h2 : s * (1 + e) / τ ≤ 1 + e := by
        rw [div_le_iff₀ hτ]
        nlinarith
      linarith
    have hN_lb : -e ≤ s * (1 + e) / τ - 1 := by
      have h2 : 1 - e ≤ s * (1 + e) / τ := by
        rw [le_div_iff₀ hτ]
        nlinarith
      linarith
    constructor
    · rw [le_div_iff₀ he]
      linarith
    · rw [div_le_one he]
      linarith
  · have hq : (τ - s) / (s + τ) ≤ 0 := by
      rw [div_nonpos_iff]
      right
      constructor
      · linarith
      · positivity
    have he : e < 0 := lt_of_le_of_ne (le_trans heu hq) hne
    have he' : 0 < -e := by linarith
    have hkey : e * (s + τ) ≤ τ - s := by
      have := (le_div_iff₀ (by positivity : (0 : ℝ) < s + τ)).1 heu
      linarith
    have hXe : (s * (1 + e) / τ - 1) / e = (-(s * (1 + e) / τ - 1)) / (-e) := by
      rw [neg_div_neg_eq]
    have hN_ge : e ≤ s * (1 + e) / τ - 1 := by
      have h2 : 1 + e ≤ s * (1 + e) / τ := by
        rw [le_div_iff₀ hτ]
        nlinarith
      linarith
    have hN_le : s * (1 + e) / τ - 1 ≤ -e := by
      have h2 : s * (1 + e) / τ ≤ 1 - e := by
        rw [div_le_iff₀ hτ]
        nlinarith
      linarith
    constructor
    · rw [hXe, le_div_iff₀ he']
      linarith
    · rw [hXe, div_le_one he']
      linarith

end

noncomputable section

theorem Transfer.min_velocity_mps (t : Transfer) :
    t.min_velocity.mps = t.velocity_hohmann.mps - t.origin.orbital_velocity.mps := rfl

theorem Transfer.max_velocity_mps (t : Transfer) :
    t.max_velocity.mps =
      if t.origin.sma.au < t.target.sma.au then
        (t.velocity_hohmann.mps - t.origin.orbital_velocity.mps) +
          t.velocity_hohmann.mps * 0.6
      else
        (t.velocity_hohmann.mps - t.origin.orbital_velocity.mps) -
          t.velocity_hohmann.mps * 0.6 := by
  unfold Transfer.max_velocity
  split_ifs with h
  · rfl
  · rfl

/-- C4: for every Transfer over valid inputs — planets with positive
semi-major axes and consistently-derived AU fields, positive parent
gravitational parameter, the transfer's parent being the origin's, and a
launch delta-v clamped between `min_velocity()` and `max_velocity()` — the
argument passed to `acos` inside `true_anomaly` (after the
`round_to(_, 5)` guard) lies in `[-1, 1]` at both the departure radius
(`origin.sma`) and the arrival radius (`target.sma`), so `acos` is never
applied outside its domain and no error is surfaced. -/
theorem acos_argument_in_domain (t : Transfer)
    (hpar : t.origin.parent = t.parent)
    (hs : 0 < t.origin.sma.m) (ht : 0 < t.target.sma.m)
    (hμ : 0 < t.parent.mass.gravitational_parameter)
    (hau_o : t.origin.sma.au = t.origin.sma.m / METERS_AU)
    (hau_t : t.target.sma.au = t.target.sma.m / METERS_AU)
    (hrange :
      (t.min_velocity.mps ≤ t.launch_velocity.mps - t.origin.orbital_velocity.mps ∧
        t.launch_velocity.mps - t.origin.orbital_velocity.mps ≤ t.max_velocity.mps) ∨
      (t.max_velocity.mps ≤ t.launch_velocity.mps - t.origin.orbital_velocity.mps ∧
        t.launch_velocity.mps - t.origin.orbital_velocity.mps ≤ t.min_velocity.mps)) :
    t.acos_argument t.origin.sma ∈ Set.Icc (-1 : ℝ) 1 ∧
    t.acos_argument t.target.sma ∈ Set.Icc (-1 : ℝ) 1 := by
  have hvo_pos : 0 < t.origin.orbital_velocity.mps := by
    rw [Planet.orbital_velocity_mps, hpar]
    exact Real.sqrt_pos.mpr (by positivity)
  have hvH_pos : 0 < t.velocity_hohmann.mps := by
    rw [Transfer.velocity_hohmann_mps]
    apply mul_pos
    · rw [Planet.orbital_velocity_mps, hpar]
      exact Real.sqrt_pos.mpr (by positivity)
    · exact Real.sqrt_pos.mpr (by positivity)
  have hvH2 : t.velocity_hohmann.mps ^ 2 =
      t.parent.mass.gravitational_parameter / t.origin.sma.m *
        ((2 * t.target.sma.m) / (t.origin.sma.m + t.target.sma.m)) := by
    rw [Transfer.velocity_hohmann_mps, mul_pow, Planet.orbital_velocity_mps, hpar,
      Real.sq_sqrt (by positivity), Real.sq_sqrt (by positivity)]
  have hAU : (0 : ℝ) < METERS_AU := by norm_num [METERS_AU]
  have hcond : (t.origin.sma.au < t.target.sma.au) ↔
      (t.origin.sma.m < t.target.sma.m) := by
    rw [hau_o, hau_t]
    exact div_lt_div_iff_of_pos_right hAU
  have hst : t.origin.sma.m + t.target.sma.m ≠ 0 := by positivity
  have hmin : t.min_velocity.mps =
      t.velocity_hohmann.mps - t.origin.orbital_velocity.mps := rfl
  rcases eq_or_ne t.eccentricity 0 with he0 | hne0
  · constructor <;>
      (rw [Transfer.acos_argument, he0, div_zero, round_to_zero]
       exact ⟨by norm_num, by norm_num⟩)
  have heq := t.eccentricity_eq hs.ne' hμ.ne'
  have hemul : t.eccentricity * t.parent.mass.gravitational_parameter =
      t.origin.sma.m * t.launch_velocity.mps ^ 2 -
        t.parent.mass.gravitational_parameter := by
    rw [heq]
    field_simp
  have hsvH : t.origin.sma.m * t.velocity_hohmann.mps ^ 2 /
      t.parent.mass.gravitational_parameter =
      2 * t.target.sma.m / (t.origin.sma.m + t.target.sma.m) := by
    rw [hvH2]
    field_simp
    ring
  have hfrac : (t.target.sma.m - t.origin.sma.m) / (t.origin.sma.m + t.target.sma.m) =
      2 * t.target.sma.m / (t.origin.sma.m + t.target.sma.m) - 1 := by
    field_simp
    ring
  obtain ⟨hv_pos, hbound⟩ :
      0 < t.launch_velocity.mps ∧
      ((t.origin.sma.m ≤ t.target.sma.m ∧
        (t.target.sma.m - t.origin.sma.m) / (t.origin.sma.m + t.target.sma.m) ≤
          t.eccentricity) ∨
       (t.target.sma.m ≤ t.origin.sma.m ∧
        t.eccentricity ≤
          (t.target.sma.m - t.origin.sma.m) / (t.origin.sma.m + t.target.sma.m))) := by
    rcases lt_or_le t.origin.sma.m t.target.sma.m with hlt | hle
    · have hmax : t.max_velocity.mps =
          (t.velocity_hohmann.mps - t.origin.orbital_velocity.mps) +
            t.velocity_hohmann.mps * 0.6 := by
        rw [Transfer.max_velocity_mps, if_pos (hcond.mpr hlt)]
      have hv_lo : t.velocity_hohmann.mps ≤ t.launch_velocity.mps := by
        rcases hrange with ⟨h1, h2⟩ | ⟨h1, h2⟩
        · rw [hmin] at h1
          linarith
        · rw [hmin] at h2
          rw [hmax] at h1
          linarith
      have hv_pos : 0 < t.launch_velocity.mps := lt_of_lt_of_le hvH_pos hv_lo
      have hv2 : t.velocity_hohmann.mps ^ 2 ≤ t.launch_velocity.mps ^ 2 :=
        pow_le_pow_left₀ hvH_pos.le hv_lo 2
      have hdiv : t.origin.sma.m * t.velocity_hohmann.mps ^ 2 /
          t.parent.mass.gravitational_parameter ≤
          t.origin.sma.m * t.launch_velocity.mps ^ 2 /
            t.parent.mass.gravitational_parameter := by
        gcongr
      have he_ge : (t.target.sma.m - t.origin.sma.m) /
          (t.origin.sma.m + t.target.sma.m) ≤ t.eccentricity := by
        rw [heq, hfrac]
        rw [hsvH] at hdiv
        linarith
      exact ⟨hv_pos, Or.inl ⟨hlt.le, he_ge⟩⟩
    · have hmax : t.max_velocity.mps =
          (t.velocity_hohmann.mps - t.origin.orbital_velocity.mps) -
            t.velocity_hohmann.mps * 0.6 := by
        rw [Transfer.max_velocity_mps,
          if_neg (fun hc => absurd (hcond.mp hc) (not_lt.mpr hle))]
      have hv_ub : t.launch_velocity.mps ≤ t.velocity_hohmann.mps := by
        rcases hrange with ⟨h1, h2⟩ | ⟨h1, h2⟩
        · rw [hmin] at h1
          rw [hmax] at h2
          linarith
        · rw [hmin] at h2
          linarith
      have hv_lb : t.velocity_hohmann.mps * 0.4 ≤ t.launch_velocity.mps := by
        rcases hrange with ⟨h1, h2⟩ | ⟨h1, h2⟩
        · rw [hmin] at h1
          rw [hmax] at h2
          linarith
        · rw [hmax] at h1
          linarith
      have hv_pos : 0 < t.launch_velocity.mps := by
        have : 0 < t.velocity_hohmann.mps * 0.4 := by positivity
        linarith
      have hv2 : t.launch_velocity.mps ^ 2 ≤ t.velocity_hohmann.mps ^ 2 :=
        pow_le_pow_left₀ hv_pos.le hv_ub 2
      have hdiv : t.origin.sma.m * t.launch_velocity.mps ^ 2 /
          t.parent.mass.gravitational_parameter ≤
          t.origin.sma.m * t.velocity_hohmann.mps ^ 2 /
            t.parent.mass.gravitational_parameter := by
        gcongr
      have he_le : t.eccentricity ≤ (t.target.sma.m - t.origin.sma.m) /
          (t.origin.sma.m + t.target.sma.m) := by
        rw [heq, hfrac]
        rw [hsvH] at hdiv
        linarith
      exact ⟨hv_pos, Or.inr ⟨hle, he_le⟩⟩
  have he_lb : -1 < t.eccentricity := by
    have h1 : 0 < t.origin.sma.m * t.launch_velocity.mps ^ 2 := by positivity
    nlinarith [hemul, hμ, h1]
  rcases eq_or_ne t.eccentricity 1 with he1 | hne1
  · have hden : 2 * t.parent.mass.gravitational_parameter -
        t.origin.sma.m * t.launch_velocity.mps ^ 2 = 0 := by
      have h2 := hemul
      rw [he1, one_mul] at h2
      linarith
    have hsma0 : t.sma.m = 0 := by
      rw [Transfer.sma_m, hden, div_zero]
    constructor <;>
      (rw [Transfer.acos_argument, hsma0, he1]
       norm_num [round_to_neg_one, Set.mem_Icc])
  have hden_ne : 2 * t.parent.mass.gravitational_parameter -
      t.origin.sma.m * t.launch_velocity.mps ^ 2 ≠ 0 := by
    intro h
    apply hne1
    have h2 := hemul
    rw [show t.origin.sma.m * t.launch_velocity.mps ^ 2 =
      2 * t.parent.mass.gravitational_parameter from by linarith] at h2
    have h3 : t.eccentricity * t.parent.mass.gravitational_parameter =
        1 * t.parent.mass.gravitational_parameter := by linarith
    exact mul_right_cancel₀ hμ.ne' h3
  have h1me : (1 : ℝ) - t.eccentricity ≠ 0 := sub_ne_zero.mpr (Ne.symm hne1)
  have hL : t.sma.m * (1 - t.eccentricity ^ 2) =
      t.origin.sma.m * (1 + t.eccentricity) := by
    rw [Transfer.sma_m, heq]
    field_simp
    ring
  have hcore := acosArg_core hs ht hne0 he_lb hbound
  constructor
  · rw [Transfer.acos_argument, hL]
    rw [show t.origin.sma.m * (1 + t.eccentricity) / t.origin.sma.m =
      1 + t.eccentricity from by rw [mul_comm, mul_div_assoc, div_self hs.ne', mul_one]]
    rw [show (1 + t.eccentricity - 1) / t.eccentricity = 1 from by
      rw [add_sub_cancel_left]
      exact div_self hne0]
    rw [round_to_one]
    exact ⟨by norm_num, le_refl 1⟩
  · rw [Transfer.acos_argument, hL]
    exact round_to_mem_Icc ⟨hcore.1, hcore.2⟩

end

noncomputable section

theorem T1_vo : T1.origin.orbital_velocity.mps = 1 := by
  rw [Planet.orbital_velocity_mps,
    show T1.origin.parent.mass.gravitational_parameter = 1 from T1_gp,
    show T1.origin.sma.m = 1 from rfl]
  norm_num

theorem T1_vH : T1.velocity_hohmann.mps = 1 := by
  rw [Transfer.velocity_hohmann_mps, T1_vo, show T1.origin.sma.m = 1 from rfl,
    show T1.target.sma.m = 1 from rfl]
  rw [show (2 : ℝ) * 1 / (1 + 1) = 1 by norm_num, Real.sqrt_one]
  norm_num

theorem T1_launch : T1.launch_velocity.mps = 1 := by
  rw [Transfer.launch_velocity_mps, T1_vH,
    show T1.add_delta_v.mps = 0 by norm_num [T1, Velocity.from_meters_per_second]]
  norm_num

/-- Witness for C4 at the degenerate transfer `T1` (delta-v pinned at the
Hohmann value, which lies between `max_velocity` and `min_velocity`). -/
theorem acos_argument_in_domain_witness :
    0 < T1.origin.sma.m ∧ 0 < T1.target.sma.m ∧
    0 < T1.parent.mass.gravitational_parameter ∧
    (T1.max_velocity.mps ≤ T1.launch_velocity.mps - T1.origin.orbital_velocity.mps ∧
      T1.launch_velocity.mps - T1.origin.orbital_velocity.mps ≤ T1.min_velocity.mps) ∧
    T1.acos_argument T1.origin.sma ∈ Set.Icc (-1 : ℝ) 1 ∧
    T1.acos_argument T1.target.sma ∈ Set.Icc (-1 : ℝ) 1 := by
  have hmax1 : T1.max_velocity.mps = -(0.6 : ℝ) := by
    rw [Transfer.max_velocity_mps,
      if_neg (show ¬(T1.origin.sma.au < T1.target.sma.au) from lt_irrefl _), T1_vH, T1_vo]
    norm_num
  have hr : T1.max_velocity.mps ≤
      T1.launch_velocity.mps - T1.origin.orbital_velocity.mps ∧
      T1.launch_velocity.mps - T1.origin.orbital_velocity.mps ≤ T1.min_velocity.mps := by
    rw [hmax1, Transfer.min_velocity_mps, T1_vH, T1_vo, T1_launch]
    norm_num
  exact ⟨one_pos, one_pos, by rw [T1_gp]; norm_num, hr,
    acos_argument_in_domain T1 rfl one_pos one_pos
      (by rw [T1_gp]; norm_num) rfl rfl (Or.inr hr)⟩

end
